import Mathlib

/-!
Shallow embedding of the InteractionPrototype interaction layer:
the clipboard manager (`src/useractions/clipboard/clipboardmanager.ts`),
the context manager (`src/contextual/contextmanager.ts`) and the demo
text store (`src/data/textstore.ts`).

DOM side effects (preventDefault, invoking a context handler, the
best-effort write to the system clipboard) are recorded as an explicit
effect trace; the single mutable slot `internalClipboardData` is passed
as explicit state.
-/

/-- A `DataTransfer` payload: a bag of (format, value) items.
Only its item list is observed by the clipboard manager
(`items.length`) and by the delivery to `HandlePaste`. -/
structure DataTransfer where
  items : List (String × String)
deriving Repr, DecidableEq

/-- The event-type constants of `clipboarddict.js` are the standard DOM
clipboard event names the handlers are bound to (`oncopy`, `oncut`,
`onpaste`). -/
def ClipboardDict.Copy : String := "copy"

def ClipboardDict.Cut : String := "cut"

def ClipboardDict.Paste : String := "paste"

/-- A browser `ClipboardEvent` as read by the manager: its `type`,
its `isTrusted` flag and its own `clipboardData`. -/
structure ClipboardEvent where
  type : String
  isTrusted : Bool
  clipboardData : DataTransfer
deriving Repr, DecidableEq

/-- An `IInterfaceContext` as read by the clipboard manager: the
payloads its `HandleCopy` / `HandleCut` return when invoked.
`HandlePaste` is void; its invocation is recorded in the effect trace. -/
structure IInterfaceContext where
  handleCopy : DataTransfer
  handleCut : DataTransfer
deriving Repr, DecidableEq

/-- Observable side effects of one clipboard-manager operation, in
program order. -/
inductive Effect where
  /-- `this.uiManager.FindActiveContext()` was called. -/
  | findActiveContext
  /-- `event.preventDefault()` was called. -/
  | preventDefault
  /-- the active context's `HandleCopy()` was invoked. -/
  | handleCopy
  /-- the active context's `HandleCut()` was invoked. -/
  | handleCut
  /-- the active context's `HandlePaste(payload)` was invoked. -/
  | handlePaste (payload : DataTransfer)
  /-- `AttemptCopyClipboardData(payload, ...)` was started. -/
  | attemptCopy (payload : DataTransfer)
deriving Repr, DecidableEq

/-- Result of one clipboard-manager operation: the value of
`internalClipboardData` when the method returns (or throws), the effect
trace up to that point, and the thrown error message, if any. -/
structure OpResult where
  state : Option DataTransfer
  effects : List Effect
  error : Option String
deriving Repr, DecidableEq

/-- `ClipboardManager.OnExternalCopy(event)`, with
`internalClipboardData` as explicit state `buf` and the result of
`FindActiveContext()` as `ctx`. -/
def OnExternalCopy (buf : Option DataTransfer) (ctx : Option IInterfaceContext)
    (event : ClipboardEvent) : OpResult :=
  if event.type ≠ ClipboardDict.Copy then
    ⟨buf, [], some ("Cannot perform " ++ event.type ++ " action on copy")⟩
  else if !event.isTrusted then
    ⟨buf, [], some "All external clipboard events must be trusted."⟩
  else
    match ctx with
    | none => ⟨none, [.findActiveContext], none⟩
    | some activeContext =>
      let ctxCopiedData := activeContext.handleCopy
      if ctxCopiedData.items.length ≤ 0 then
        ⟨buf, [.findActiveContext, .preventDefault, .handleCopy], none⟩
      else
        ⟨some ctxCopiedData,
         [.findActiveContext, .preventDefault, .handleCopy, .attemptCopy ctxCopiedData],
         none⟩

/-- `ClipboardManager.OnInternalCopy()`. -/
def OnInternalCopy (buf : Option DataTransfer) (ctx : Option IInterfaceContext) :
    OpResult :=
  match ctx with
  | none => ⟨none, [.findActiveContext], none⟩
  | some activeContext =>
    let ctxCopiedData := activeContext.handleCopy
    if ctxCopiedData.items.length ≤ 0 then
      ⟨buf, [.findActiveContext, .handleCopy], none⟩
    else
      ⟨some ctxCopiedData,
       [.findActiveContext, .handleCopy, .attemptCopy ctxCopiedData],
       none⟩

/-- `ClipboardManager.OnExternalCut(event)`. -/
def OnExternalCut (buf : Option DataTransfer) (ctx : Option IInterfaceContext)
    (event : ClipboardEvent) : OpResult :=
  if event.type ≠ ClipboardDict.Cut then
    ⟨buf, [], some ("Cannot perform " ++ event.type ++ " action on cut")⟩
  else if !event.isTrusted then
    ⟨buf, [], some "All external clipboard events must be trusted."⟩
  else
    match ctx with
    | none => ⟨none, [.findActiveContext], none⟩
    | some activeContext =>
      let ctxCutData := activeContext.handleCut
      if ctxCutData.items.length ≤ 0 then
        ⟨buf, [.findActiveContext, .preventDefault, .handleCut], none⟩
      else
        ⟨some ctxCutData,
         [.findActiveContext, .preventDefault, .handleCut, .attemptCopy ctxCutData],
         none⟩

/-- `ClipboardManager.OnInternalCut()`. -/
def OnInternalCut (buf : Option DataTransfer) (ctx : Option IInterfaceContext) :
    OpResult :=
  match ctx with
  | none => ⟨none, [.findActiveContext], none⟩
  | some activeContext =>
    let ctxCutData := activeContext.handleCut
    if ctxCutData.items.length ≤ 0 then
      ⟨buf, [.findActiveContext, .handleCut], none⟩
    else
      ⟨some ctxCutData,
       [.findActiveContext, .handleCut, .attemptCopy ctxCutData],
       none⟩

/-- `ClipboardManager.OnExternalPaste(event)`. -/
def OnExternalPaste (buf : Option DataTransfer) (ctx : Option IInterfaceContext)
    (event : ClipboardEvent) : OpResult :=
  if event.type ≠ ClipboardDict.Paste then
    ⟨buf, [], some ("Cannot perform " ++ event.type ++ " action on paste")⟩
  else if !event.isTrusted then
    ⟨buf, [], some "All external clipboard events must be trusted."⟩
  else
    match ctx with
    | none => ⟨buf, [.findActiveContext], none⟩
    | some _ =>
      let dataToUse : DataTransfer :=
        match buf with
        | none => event.clipboardData
        | some d => d
      ⟨buf, [.findActiveContext, .preventDefault, .handlePaste dataToUse], none⟩

/-- `ClipboardManager.OnInternalPaste()`. -/
def OnInternalPaste (buf : Option DataTransfer) (ctx : Option IInterfaceContext) :
    OpResult :=
  match buf with
  | none => ⟨buf, [], none⟩
  | some d =>
    match ctx with
    | none => ⟨buf, [.findActiveContext], none⟩
    | some _ => ⟨buf, [.findActiveContext, .handlePaste d], none⟩

/-- `ClipboardManager.OnClipboardChange(event)`: overwrites the internal
buffer with the event's payload. -/
def OnClipboardChange (event : ClipboardEvent) : Option DataTransfer :=
  some event.clipboardData

/-- The payload delivered to `HandlePaste` during an operation, if any. -/
def deliveredPayload (r : OpResult) : Option DataTransfer :=
  r.effects.findSome? fun e =>
    match e with
    | .handlePaste payload => some payload
    | _ => none

/-! ### Context manager (`src/contextual/contextmanager.ts`) -/

/-- The constant `ContextMenuId`. -/
def ContextMenuId : String := "contextmenu"

/-- A `Selection` as read by the context manager: the action list its
`GetContextActions()` returns. -/
structure Selection where
  getContextActions : List String
deriving Repr, DecidableEq

/-- An `IInteractionContext` as read by the context manager: the result
of its `GetActiveSelection()`. -/
structure IInteractionContext where
  getActiveSelection : Option Selection
deriving Repr, DecidableEq

/-- A DOM element as observed here: its `id`, its `style.left` and
`style.top` strings, and (for context-menu elements) its action list. -/
structure DomElement where
  id : String
  left : String
  top : String
  actions : List String
deriving Repr, DecidableEq

/-- `ContextManager.SpawnContextMenu(positionX, positionY)`: the
children of the document's `main` element as explicit state, the
result of `FindActiveContext()` as `ctx`. Throws (returns `.error`)
when the active context or its selection is absent; otherwise appends
the styled, populated menu element. -/
def SpawnContextMenu (mainChildren : List DomElement)
    (ctx : Option IInteractionContext) (positionX positionY : Int) :
    Except String (List DomElement) :=
  match ctx with
  | none => .error ""
  | some activeContext =>
    match activeContext.getActiveSelection with
    | none => .error ""
    | some activeSelection =>
      .ok (mainChildren ++
        [{ id := ContextMenuId,
           left := toString positionX,
           top := toString positionY,
           actions := activeSelection.getContextActions }])

/-- `ContextManager.ShouldClearMenu(target)`: `target` is the release
target, `none` for a null target, otherwise carrying the element's id. -/
def ShouldClearMenu (target : Option String) : Bool :=
  match target with
  | none => true
  | some targetId => targetId ≠ ContextMenuId

/-- `ContextManager.ClearMenu()`: `document.getElementById` resolves the
first element whose id is `ContextMenuId`; if found it is removed from
its parent. -/
def ClearMenu : List DomElement → List DomElement
  | [] => []
  | e :: rest => if e.id = ContextMenuId then rest else e :: ClearMenu rest

/-- The `onmouseup` handler installed by the `ContextManager`
constructor: clear the menu when `ShouldClearMenu` holds of the release
target. -/
def OnMouseUp (doc : List DomElement) (target : Option String) : List DomElement :=
  if ShouldClearMenu target then ClearMenu doc else doc

/-- Number of context-menu elements in the document. -/
def menuCount (doc : List DomElement) : Nat :=
  doc.countP fun e => e.id = ContextMenuId

/-! ### Text store (`src/data/textstore.ts`)

`InsertData` / `RemoveData` use `Array.prototype.splice`, whose start
index is clamped into `[0, length]` (a negative start counts from the
end). `BroadcastUpdates()` of the base store is recorded as a call
counter. -/

/-- `TextStore`: the backing string array and the number of
`BroadcastUpdates()` calls made so far. -/
structure TextStore where
  data : List String
  broadcasts : Nat
deriving Repr, DecidableEq

/-- The actual start index of `splice(start, ...)` on an array of
length `len`: negative values count from the end, and the result is
clamped into `[0, len]`. -/
def spliceStart (len : Nat) (start : Int) : Nat :=
  if start < 0 then ((len : Int) + start).toNat else min start.toNat len

/-- `TextStore.GetData(index)`: plain JS indexing, `undefined` (`none`)
outside `[0, length)`. Reads only; the store is not touched. -/
def TextStore.GetData (s : TextStore) (index : Int) : Option String :=
  if h : 0 ≤ index ∧ index < (s.data.length : Int) then
    some (s.data.get ⟨index.toNat, by omega⟩)
  else
    none

/-- `TextStore.InsertData(index, data)`:
`this.Data.splice(index, 0, data)` then one `BroadcastUpdates()`. -/
def TextStore.InsertData (s : TextStore) (index : Int) (data : String) : TextStore :=
  let st := spliceStart s.data.length index
  { data := s.data.take st ++ data :: s.data.drop st,
    broadcasts := s.broadcasts + 1 }

/-- `TextStore.RemoveData(index)`:
`this.Data.splice(index, 1)[0]` then one `BroadcastUpdates()`; returns
the removed element (`undefined` when nothing was removed) and the new
store. -/
def TextStore.RemoveData (s : TextStore) (index : Int) : Option String × TextStore :=
  let st := spliceStart s.data.length index
  ((s.data.drop st).head?,
   { data := s.data.take st ++ s.data.drop (st + 1),
     broadcasts := s.broadcasts + 1 })

/-- `TextStore.GetDataLength()`. -/
def TextStore.GetDataLength (s : TextStore) : Nat :=
  s.data.length

/-! ### Theorems -/

/-- C1: for every paste delivery with a non-null active context, a
non-absent internal buffer takes precedence over the event's own
clipboard data: the payload handed to `HandlePaste` is the internal
buffer; only with an absent internal buffer does `OnExternalPaste`
deliver the event's own `clipboardData`. -/
theorem C1_internal_buffer_precedence_on_paste
    (event : ClipboardEvent) (c : IInterfaceContext) (d : DataTransfer)
    (htype : event.type = ClipboardDict.Paste) (htrust : event.isTrusted = true) :
    deliveredPayload (OnExternalPaste (some d) (some c) event) = some d ∧
    deliveredPayload (OnExternalPaste none (some c) event) = some event.clipboardData ∧
    deliveredPayload (OnInternalPaste (some d) (some c)) = some d := by
  simp [OnExternalPaste, OnInternalPaste, deliveredPayload, htype, htrust,
    List.findSome?]

theorem C1_internal_buffer_precedence_on_paste_witness :
    deliveredPayload (OnExternalPaste (some ⟨[("text/plain", "int")]⟩)
        (some ⟨⟨[]⟩, ⟨[]⟩⟩) ⟨ClipboardDict.Paste, true, ⟨[("text/plain", "ext")]⟩⟩) =
      some ⟨[("text/plain", "int")]⟩ :=
  (C1_internal_buffer_precedence_on_paste
    ⟨ClipboardDict.Paste, true, ⟨[("text/plain", "ext")]⟩⟩
    ⟨⟨[]⟩, ⟨[]⟩⟩ ⟨[("text/plain", "int")]⟩ rfl rfl).1

/-- C3: an untrusted clipboard event makes `OnExternalCopy`,
`OnExternalCut` and `OnExternalPaste` throw, and the internal buffer is
unchanged on that path. -/
theorem C3_untrusted_event_throws_without_mutation
    (buf : Option DataTransfer) (ctx : Option IInterfaceContext)
    (event : ClipboardEvent) (htrust : event.isTrusted = false) :
    ((OnExternalCopy buf ctx event).error.isSome = true ∧
      (OnExternalCopy buf ctx event).state = buf) ∧
    ((OnExternalCut buf ctx event).error.isSome = true ∧
      (OnExternalCut buf ctx event).state = buf) ∧
    ((OnExternalPaste buf ctx event).error.isSome = true ∧
      (OnExternalPaste buf ctx event).state = buf) := by
  refine ⟨?_, ?_, ?_⟩ <;>
    simp only [OnExternalCopy, OnExternalCut, OnExternalPaste, htrust] <;>
    split <;> simp

theorem C3_untrusted_event_throws_without_mutation_witness :
    (OnExternalCopy (some ⟨[("text/plain", "x")]⟩) none
        ⟨ClipboardDict.Copy, false, ⟨[]⟩⟩).state = some ⟨[("text/plain", "x")]⟩ :=
  (C3_untrusted_event_throws_without_mutation (some ⟨[("text/plain", "x")]⟩) none
    ⟨ClipboardDict.Copy, false, ⟨[]⟩⟩ rfl).1.2

/-- C4: a clipboard event of the wrong type makes the external handler
throw before anything else happens: the effect trace is empty, so
`FindActiveContext` was not called and no context handler was invoked. -/
theorem C4_wrong_type_throws_before_context_query
    (buf : Option DataTransfer) (ctx : Option IInterfaceContext)
    (e1 e2 e3 : ClipboardEvent)
    (h1 : e1.type ≠ ClipboardDict.Copy) (h2 : e2.type ≠ ClipboardDict.Cut)
    (h3 : e3.type ≠ ClipboardDict.Paste) :
    ((OnExternalCopy buf ctx e1).error.isSome = true ∧
      (OnExternalCopy buf ctx e1).effects = []) ∧
    ((OnExternalCut buf ctx e2).error.isSome = true ∧
      (OnExternalCut buf ctx e2).effects = []) ∧
    ((OnExternalPaste buf ctx e3).error.isSome = true ∧
      (OnExternalPaste buf ctx e3).effects = []) := by
  simp [OnExternalCopy, OnExternalCut, OnExternalPaste, h1, h2, h3]

theorem C4_wrong_type_throws_before_context_query_witness :
    (OnExternalCopy none none ⟨ClipboardDict.Paste, true, ⟨[]⟩⟩).effects = [] :=
  (C4_wrong_type_throws_before_context_query none none
    ⟨ClipboardDict.Paste, true, ⟨[]⟩⟩ ⟨ClipboardDict.Copy, true, ⟨[]⟩⟩
    ⟨ClipboardDict.Copy, true, ⟨[]⟩⟩ (by decide) (by decide) (by decide)).1.2

/-- C5: when the active context's handler returns a zero-item payload,
all four copy/cut operations leave the internal buffer unchanged and
attempt no write to the system clipboard. -/
theorem C5_empty_payload_is_noop
    (buf : Option DataTransfer) (c : IInterfaceContext)
    (e1 e2 : ClipboardEvent)
    (hcopy : c.handleCopy.items.length = 0) (hcut : c.handleCut.items.length = 0)
    (h1 : e1.type = ClipboardDict.Copy) (h1t : e1.isTrusted = true)
    (h2 : e2.type = ClipboardDict.Cut) (h2t : e2.isTrusted = true) :
    ((OnExternalCopy buf (some c) e1).state = buf ∧
      ∀ p, Effect.attemptCopy p ∉ (OnExternalCopy buf (some c) e1).effects) ∧
    ((OnExternalCut buf (some c) e2).state = buf ∧
      ∀ p, Effect.attemptCopy p ∉ (OnExternalCut buf (some c) e2).effects) ∧
    ((OnInternalCopy buf (some c)).state = buf ∧
      ∀ p, Effect.attemptCopy p ∉ (OnInternalCopy buf (some c)).effects) ∧
    ((OnInternalCut buf (some c)).state = buf ∧
      ∀ p, Effect.attemptCopy p ∉ (OnInternalCut buf (some c)).effects) := by
  simp [OnExternalCopy, OnExternalCut, OnInternalCopy, OnInternalCut,
    hcopy, hcut, h1, h1t, h2, h2t]

theorem C5_empty_payload_is_noop_witness :
    (OnExternalCopy (some ⟨[("text/plain", "old")]⟩) (some ⟨⟨[]⟩, ⟨[]⟩⟩)
      ⟨ClipboardDict.Copy, true, ⟨[]⟩⟩).state = some ⟨[("text/plain", "old")]⟩ :=
  (C5_empty_payload_is_noop (some ⟨[("text/plain", "old")]⟩) ⟨⟨[]⟩, ⟨[]⟩⟩
    ⟨ClipboardDict.Copy, true, ⟨[]⟩⟩ ⟨ClipboardDict.Cut, true, ⟨[]⟩⟩
    rfl rfl rfl rfl rfl rfl).1.1

/-- C6: every copy/cut operation with no active context sets the
internal buffer to absent and does nothing else after the context
query: no handler is invoked and (for the external variants)
`preventDefault` is not called, so the native action proceeds. -/
theorem C6_no_active_context_clears_buffer
    (buf : Option DataTransfer) (e1 e2 : ClipboardEvent)
    (h1 : e1.type = ClipboardDict.Copy) (h1t : e1.isTrusted = true)
    (h2 : e2.type = ClipboardDict.Cut) (h2t : e2.isTrusted = true) :
    ((OnExternalCopy buf none e1).state = none ∧
      (OnExternalCopy buf none e1).effects = [Effect.findActiveContext]) ∧
    ((OnExternalCut buf none e2).state = none ∧
      (OnExternalCut buf none e2).effects = [Effect.findActiveContext]) ∧
    ((OnInternalCopy buf none).state = none ∧
      (OnInternalCopy buf none).effects = [Effect.findActiveContext]) ∧
    ((OnInternalCut buf none).state = none ∧
      (OnInternalCut buf none).effects = [Effect.findActiveContext]) := by
  simp [OnExternalCopy, OnExternalCut, OnInternalCopy, OnInternalCut,
    h1, h1t, h2, h2t]

theorem C6_no_active_context_clears_buffer_witness :
    (OnExternalCopy (some ⟨[("text/plain", "x")]⟩) none
      ⟨ClipboardDict.Copy, true, ⟨[]⟩⟩).state = none :=
  (C6_no_active_context_clears_buffer (some ⟨[("text/plain", "x")]⟩)
    ⟨ClipboardDict.Copy, true, ⟨[]⟩⟩ ⟨ClipboardDict.Cut, true, ⟨[]⟩⟩
    rfl rfl rfl rfl).1.1

/-- C9: neither paste operation ever writes the internal clipboard
buffer: for every event and active-context result, the buffer after
`OnExternalPaste` / `OnInternalPaste` equals the buffer before. -/
theorem C9_paste_never_writes_buffer
    (buf : Option DataTransfer) (ctx : Option IInterfaceContext)
    (event : ClipboardEvent) :
    (OnExternalPaste buf ctx event).state = buf ∧
    (OnInternalPaste buf ctx).state = buf := by
  constructor
  · unfold OnExternalPaste
    split
    · rfl
    · split
      · rfl
      · cases ctx <;> rfl
  · unfold OnInternalPaste
    cases buf <;> cases ctx <;> rfl

/-- Helper: removing the first context-menu element from a document
holding at most one leaves none. -/
theorem menuCount_ClearMenu (doc : List DomElement) (h : menuCount doc ≤ 1) :
    menuCount (ClearMenu doc) = 0 := by
  induction doc with
  | nil => rfl
  | cons e rest ih =>
    simp only [ClearMenu]
    split
    · next he =>
      have hcons : menuCount (e :: rest) = menuCount rest + 1 := by
        simp [menuCount, List.countP_cons, he]
      rw [hcons] at h
      omega
    · next he =>
      have hcons : menuCount (e :: rest) = menuCount rest := by
        simp [menuCount, List.countP_cons, he]
      have hcons2 : menuCount (e :: ClearMenu rest) = menuCount (ClearMenu rest) := by
        simp [menuCount, List.countP_cons, he]
      rw [hcons2]
      exact ih (by omega)

/-- C2: `SpawnContextMenu(x, y)` throws when the active context is
absent or its active selection is absent; with both present it appends
exactly one context-menu element to the `main` region, with
`style.left` / `style.top` set from the coordinates and the action
list taken from the selection. -/
theorem C2_spawn_context_menu_spec
    (mainChildren : List DomElement) (x y : Int) :
    (∃ msg, SpawnContextMenu mainChildren none x y = .error msg) ∧
    (∀ c : IInteractionContext, c.getActiveSelection = none →
      ∃ msg, SpawnContextMenu mainChildren (some c) x y = .error msg) ∧
    (∀ (c : IInteractionContext) (sel : Selection),
      c.getActiveSelection = some sel →
      SpawnContextMenu mainChildren (some c) x y =
        .ok (mainChildren ++
          [{ id := ContextMenuId, left := toString x, top := toString y,
             actions := sel.getContextActions }])) := by
  refine ⟨⟨"", rfl⟩, ?_, ?_⟩
  · intro c hc
    exact ⟨"", by simp [SpawnContextMenu, hc]⟩
  · intro c sel hc
    simp [SpawnContextMenu, hc]

theorem C2_spawn_context_menu_spec_witness :
    SpawnContextMenu [] (some ⟨some ⟨["Delete", "Duplicate"]⟩⟩) 120 80 =
      .ok [{ id := ContextMenuId, left := toString (120 : Int),
             top := toString (80 : Int), actions := ["Delete", "Duplicate"] }] :=
  (C2_spawn_context_menu_spec [] 120 80).2.2
    ⟨some ⟨["Delete", "Duplicate"]⟩⟩ ⟨["Delete", "Duplicate"]⟩ rfl

/-- C8: on pointer release over a document holding at most one
context-menu element, a release target other than the context menu
(a null target included) leaves no menu in the document, while a
release on the menu itself leaves the document unchanged. -/
theorem C8_mouseup_menu_clearing
    (doc : List DomElement) (target : Option String)
    (hone : menuCount doc ≤ 1) :
    (target ≠ some ContextMenuId → menuCount (OnMouseUp doc target) = 0) ∧
    (target = some ContextMenuId → OnMouseUp doc target = doc) := by
  constructor
  · intro hne
    have hclear : ShouldClearMenu target = true := by
      cases target with
      | none => rfl
      | some targetId =>
        have hid : targetId ≠ ContextMenuId := fun hid => hne (by rw [hid])
        simp [ShouldClearMenu, hid]
    rw [OnMouseUp, if_pos hclear]
    exact menuCount_ClearMenu doc hone
  · intro heq
    subst heq
    rw [OnMouseUp, if_neg (by simp [ShouldClearMenu])]

theorem C8_mouseup_menu_clearing_witness :
    menuCount (OnMouseUp [⟨ContextMenuId, "10", "20", []⟩] none) = 0 :=
  (C8_mouseup_menu_clearing [⟨ContextMenuId, "10", "20", []⟩] none
    (by decide)).1 (by decide)

/-- C7 fails as stated: `splice` clamps an out-of-range start index
into `[0, length]`, so on an empty store `InsertData(1, "a")` places
`"a"` at index 0 and `GetData(1)` yields `undefined`, not `"a"`. -/
theorem C7_counterexample_out_of_range_index :
    ¬ (((⟨[], 0⟩ : TextStore).InsertData 1 "a").GetData 1 = some "a") := by
  decide

/-- Helper: for a non-negative index, `GetData` is plain optional list
indexing. -/
theorem TextStore.GetData_eq_getElem? (s : TextStore) (i : Int) (h0 : 0 ≤ i) :
    s.GetData i = s.data[i.toNat]? := by
  unfold TextStore.GetData
  split
  · next h =>
    rw [List.getElem?_eq_getElem (by omega)]
    rfl
  · next h =>
    rw [List.getElem?_eq_none (by omega)]

/-- C7 (amended to in-range indices): for `0 ≤ i ≤ length`,
`InsertData(i, s)` followed by `GetData(i)` returns `s`; for
`0 ≤ i < length`, `RemoveData(i)` returns the value previously stored
at `i` and decreases `GetDataLength()` by exactly one; and every
`InsertData` / `RemoveData` call triggers exactly one broadcast
notification. -/
theorem C7_text_store_ops_in_range (s : TextStore) (i : Int) (x : String)
    (h0 : 0 ≤ i) :
    (i ≤ (s.GetDataLength : Int) → (s.InsertData i x).GetData i = some x) ∧
    (i < (s.GetDataLength : Int) →
      (s.RemoveData i).1 = s.GetData i ∧
      (s.RemoveData i).2.GetDataLength + 1 = s.GetDataLength) ∧
    (s.InsertData i x).broadcasts = s.broadcasts + 1 ∧
    (s.RemoveData i).2.broadcasts = s.broadcasts + 1 := by
  refine ⟨?_, ?_, rfl, rfl⟩
  · intro hle
    simp only [TextStore.GetDataLength] at hle
    have hn : i.toNat ≤ s.data.length := by omega
    have hst : spliceStart s.data.length i = i.toNat := by
      simp only [spliceStart, if_neg (by omega : ¬ i < 0)]
      omega
    have htake : (s.data.take i.toNat).length = i.toNat := by
      simp only [List.length_take]
      omega
    rw [TextStore.GetData_eq_getElem? _ i h0]
    simp only [TextStore.InsertData, hst]
    rw [List.getElem?_append_right (le_of_eq htake)]
    simp [htake]
  · intro hlt
    simp only [TextStore.GetDataLength] at hlt
    have hn : i.toNat < s.data.length := by omega
    have hst : spliceStart s.data.length i = i.toNat := by
      simp only [spliceStart, if_neg (by omega : ¬ i < 0)]
      omega
    constructor
    · rw [TextStore.GetData_eq_getElem? s i h0]
      simp only [TextStore.RemoveData, hst]
      rw [List.head?_drop]
    · simp only [TextStore.RemoveData, TextStore.GetDataLength, hst,
        List.length_append, List.length_take, List.length_drop]
      omega

theorem C7_text_store_ops_in_range_witness :
    ((⟨["a", "b"], 0⟩ : TextStore).InsertData 1 "z").GetData 1 = some "z" :=
  (C7_text_store_ops_in_range ⟨["a", "b"], 0⟩ 1 "z" (by decide)).1 (by decide)

/-- C10: `GetData` is total: any index outside `[0, length)` yields an
absent value (`undefined`) rather than an error; the read performs no
mutation, as reflected in `GetData` being a pure observation of the
store. -/
theorem C10_get_data_total_out_of_range (s : TextStore) (i : Int)
    (h : i < 0 ∨ (s.GetDataLength : Int) ≤ i) :
    s.GetData i = none := by
  have hc : ¬ (0 ≤ i ∧ i < (s.data.length : Int)) := by
    simp only [TextStore.GetDataLength] at h
    omega
  simp [TextStore.GetData, hc]

theorem C10_get_data_total_out_of_range_witness :
    (⟨["a"], 0⟩ : TextStore).GetData (-1) = none :=
  C10_get_data_total_out_of_range ⟨["a"], 0⟩ (-1) (Or.inl (by decide))
